import Mathlib

/-!
Shallow embedding of the `educational_platform` repository: the signup page
(`src/frontend/src/app/sigunp.tsx`), the markdown editor test page
(`src/frontend/src/app/markdown-editor-test/page.tsx`), and the PWA build
configuration (`src/next.config.js`).

React component state is modelled as explicit records, event handlers as
pure state/effect transformers, and JSX render output as records of the
props handed to the rendered elements.
-/

namespace EducationalPlatform

/-! ## Signup page (`sigunp.tsx`) -/

/-- The component-local state of `SignupPage`: the three `useState` strings
`name`, `email`, `password`. -/
structure SignupState where
  name : String
  email : String
  password : String
deriving Repr, DecidableEq

/-- `useState('')` three times: all fields start empty. -/
def initialSignupState : SignupState :=
  { name := "", email := "", password := "" }

/-- The slice of a `React.FormEvent` the handler touches: whether
`preventDefault()` has been called on it. -/
structure FormEvent where
  defaultPrevented : Bool
deriving Repr, DecidableEq

/-- Result of running the submit handler: the (possibly mutated) event and
the list of browser alerts shown, in order. -/
structure SignupEffects where
  event : FormEvent
  alerts : List String
deriving Repr, DecidableEq

/-- The template literal `تم التسجيل: ${name}, ${email}` passed to `alert`. -/
def signupAlertMessage (s : SignupState) : String :=
  "تم التسجيل: " ++ s.name ++ ", " ++ s.email

/-- `handleSignup = (e) => { e.preventDefault(); alert(...) }`. -/
def handleSignup (s : SignupState) (e : FormEvent) : SignupEffects :=
  { event := { e with defaultPrevented := true }
    alerts := [signupAlertMessage s] }

/-- `onChange` of the name input: `(e) => setName(e.target.value)`. -/
def setName (s : SignupState) (v : String) : SignupState :=
  { s with name := v }

/-- `onChange` of the email input: `(e) => setEmail(e.target.value)`. -/
def setEmail (s : SignupState) (v : String) : SignupState :=
  { s with email := v }

/-- `onChange` of the password input: `(e) => setPassword(e.target.value)`. -/
def setPassword (s : SignupState) (v : String) : SignupState :=
  { s with password := v }

/-- The props of the three `<input>` elements as rendered by `SignupPage`:
each input is controlled (`value={...}`) and carries the `required`
attribute. -/
structure SignupRender where
  nameValue : String
  nameRequired : Bool
  emailValue : String
  emailRequired : Bool
  passwordValue : String
  passwordRequired : Bool
deriving Repr, DecidableEq

/-- The JSX returned by `SignupPage` for a given state: every input's
`value` is bound to the corresponding state variable, and all three
inputs have `required`. -/
def renderSignup (s : SignupState) : SignupRender :=
  { nameValue := s.name, nameRequired := true
    emailValue := s.email, emailRequired := true
    passwordValue := s.password, passwordRequired := true }

/-- `sub` occurs as a contiguous substring of `msg`. -/
def containsStr (msg sub : String) : Prop :=
  ∃ before after, msg = before ++ sub ++ after

/-! ## Markdown editor test page (`page.tsx`) -/

/-- A JavaScript `string | undefined` value: `none` is `undefined`. -/
abbrev JSStr := Option String

/-- JavaScript truthiness on `string | undefined`: `undefined` and the
empty string are falsy. -/
def jsFalsy : JSStr → Bool
  | none => true
  | some s => s == ""

/-- The JavaScript expression `val || ""`: the left operand if truthy,
otherwise `""`. -/
def jsOrEmpty (val : JSStr) : JSStr :=
  if jsFalsy val then some "" else val

/-- The component-local state of `MarkdownEditorTestPage`: the single
`useState` markdown document. Kept as a JavaScript value (`Option`) so
that "never `undefined`" is expressible. -/
structure EditorState where
  value : JSStr
deriving Repr, DecidableEq

/-- The initial document of the `useState` template literal, with
JavaScript template-literal escape semantics applied: `\` before a
newline is a line continuation (contributing nothing), `\f` is form feed,
`\r` is carriage return, `\b` is backspace, and `\i` `\l` `\a` `\g` `\s`
are non-escape sequences yielding the bare character. -/
def initialDocument : String :=
  "**Hello world!!!**\n\nLet\x27s test LaTeX:\n\nInline math: $E = mc^2$\n\nDisplay math (Pandoc style):\n\n$$\nint_0^infty x^2 e^\x7b-x\x7d dx = 2\n$$\n\nDisplay math (GitLab/GitHub style):\n\nmath\n\x0Crac\x7bd\x7d\x7bdx\x7d left( int_0^x f(u) du \x0Dight) = f(x)\n\nAnother inline example: $alpha + \x08eta = gamma$.\n\nMore complex display equation:\n\n$$\nsum_\x7bi=1\x7d^\x7bn\x7d i = \x0Crac\x7bn(n+1)\x7d\x7b2\x7d\n$$\n"

/-- `useState(...)` with the initial template literal. -/
def initialEditorState : EditorState :=
  { value := some initialDocument }

/-- The editor's change handler `(val) => setValue(val || "")`. -/
def editorOnChange (s : EditorState) (val : JSStr) : EditorState :=
  { s with value := jsOrEmpty val }

/-- Run a sequence of change events against an editor state. -/
def runEditor (init : EditorState) (events : List JSStr) : EditorState :=
  events.foldl editorOnChange init

/-- The remark plugins appearing in the page. -/
inductive RemarkPlugin where
  | remarkMath
deriving Repr, DecidableEq

/-- The rehype plugins appearing in the page. -/
inductive RehypePlugin where
  | rehypeKatex
deriving Repr, DecidableEq

/-- The `previewOptions` object handed to `MDEditor`. -/
structure PreviewOptions where
  remarkPlugins : List RemarkPlugin
  rehypePlugins : List RehypePlugin
deriving Repr, DecidableEq

/-- The props of the `<MDEditor>` element. -/
structure MDEditorProps where
  value : JSStr
  height : Nat
  previewOptions : PreviewOptions
deriving Repr, DecidableEq

/-- The props of the standalone `<MDEditor.Markdown>` element. -/
structure MarkdownPaneProps where
  source : JSStr
  remarkPlugins : List RemarkPlugin
  rehypePlugins : List RehypePlugin
deriving Repr, DecidableEq

/-- Everything `MarkdownEditorTestPage` renders that depends on state. -/
structure EditorRender where
  editor : MDEditorProps
  standalone : MarkdownPaneProps
deriving Repr, DecidableEq

/-- The JSX returned by `MarkdownEditorTestPage` for a given state. -/
def renderEditorPage (s : EditorState) : EditorRender :=
  { editor :=
      { value := s.value
        height := 500
        previewOptions :=
          { remarkPlugins := [RemarkPlugin.remarkMath]
            rehypePlugins := [RehypePlugin.rehypeKatex] } }
    standalone :=
      { source := s.value
        remarkPlugins := [RemarkPlugin.remarkMath]
        rehypePlugins := [RehypePlugin.rehypeKatex] } }

/-- A preview configuration supports `$...$` / `$$...$$` math exactly when
it carries both the `remark-math` and `rehype-katex` plugins. -/
def mathConfigured (rm : List RemarkPlugin) (rh : List RehypePlugin) : Bool :=
  rm.contains RemarkPlugin.remarkMath && rh.contains RehypePlugin.rehypeKatex

/-! ## PWA build configuration (`next.config.js`) -/

/-- The options object passed to `require("next-pwa")(...)`. -/
structure PWAOptions where
  dest : String
  register : Bool
  skipWaiting : Bool
  disable : Bool
deriving Repr, DecidableEq

/-- The options literal in `next.config.js`, as a function of the
`NODE_ENV` environment variable. -/
def pwaOptions (nodeEnv : String) : PWAOptions :=
  { dest := "public"
    register := true
    skipWaiting := true
    disable := nodeEnv == "development" }

end EducationalPlatform

namespace EducationalPlatform

/-! ## Theorems -/

/-- C1: for every signup state in which name, email and password are all
non-empty, `handleSignup` marks the event default-prevented and shows one
alert whose text contains both the entered name and the entered email. -/
theorem handleSignup_prevents_default_and_alerts
    (s : SignupState) (e : FormEvent)
    (hn : s.name ≠ "") (he : s.email ≠ "") (hp : s.password ≠ "") :
    (handleSignup s e).event.defaultPrevented = true ∧
      ∃ msg, (handleSignup s e).alerts = [msg] ∧
        containsStr msg s.name ∧ containsStr msg s.email := by
  refine ⟨rfl, signupAlertMessage s, rfl, ?_, ?_⟩
  · exact ⟨"تم التسجيل: ", ", " ++ s.email, by
      simp [signupAlertMessage, String.append_assoc]⟩
  · exact ⟨"تم التسجيل: " ++ s.name ++ ", ", "", by
      simp [signupAlertMessage, String.append_empty]⟩

/-- Witness for C1 at a concrete populated state. -/
theorem handleSignup_prevents_default_and_alerts_witness :
    ("Ali" : String) ≠ "" ∧ ("a@b.c" : String) ≠ "" ∧ ("pw" : String) ≠ "" ∧
      ((handleSignup { name := "Ali", email := "a@b.c", password := "pw" }
          { defaultPrevented := false }).event.defaultPrevented = true ∧
        ∃ msg,
          (handleSignup { name := "Ali", email := "a@b.c", password := "pw" }
              { defaultPrevented := false }).alerts = [msg] ∧
            containsStr msg "Ali" ∧ containsStr msg "a@b.c") :=
  ⟨by decide, by decide, by decide,
    handleSignup_prevents_default_and_alerts
      { name := "Ali", email := "a@b.c", password := "pw" }
      { defaultPrevented := false } (by decide) (by decide) (by decide)⟩

/-- C2: `handleSignup` is total with no failure branch: on every state and
event it returns exactly the default-prevented event together with the
single alert, and nothing else. -/
theorem handleSignup_total (s : SignupState) (e : FormEvent) :
    handleSignup s e =
      { event := { defaultPrevented := true }
        alerts := [signupAlertMessage s] } := rfl

/-- C3: each input is controlled: firing a field's change event with a
string makes that field's state, and hence its displayed `value`, equal
that string. -/
theorem signup_inputs_controlled (s : SignupState) (v : String) :
    (renderSignup (setName s v)).nameValue = v ∧
      (renderSignup (setEmail s v)).emailValue = v ∧
      (renderSignup (setPassword s v)).passwordValue = v :=
  ⟨rfl, rfl, rfl⟩

/-- C4: each change handler updates only its own field and leaves the
other two state variables unchanged. -/
theorem signup_setters_frame (s : SignupState) (v : String) :
    ((setName s v).email = s.email ∧ (setName s v).password = s.password) ∧
      ((setEmail s v).name = s.name ∧ (setEmail s v).password = s.password) ∧
      ((setPassword s v).name = s.name ∧ (setPassword s v).email = s.email) :=
  ⟨⟨rfl, rfl⟩, ⟨rfl, rfl⟩, ⟨rfl, rfl⟩⟩

/-- C5: after any sequence of change events ending in one that carries the
string `val`, the editor's value state equals `val`. -/
theorem editor_value_eq_last_typed
    (init : EditorState) (events : List JSStr) (val : String) :
    (runEditor init (events ++ [some val])).value = some val := by
  simp only [runEditor, List.foldl_append, List.foldl_cons, List.foldl_nil]
  by_cases h : val = ""
  · subst h; rfl
  · simp [editorOnChange, jsOrEmpty, jsFalsy, h]

/-- C6: for every editor state — hence after every edit — both the
editor's built-in preview and the standalone pane receive the latest
value, and both carry `remarkMath` and `rehypeKatex`, the configuration
under which `$...$` and `$$...$$` math renders. -/
theorem editor_previews_track_value_with_math (s : EditorState) :
    (renderEditorPage s).editor.value = s.value ∧
      (renderEditorPage s).standalone.source = s.value ∧
      mathConfigured (renderEditorPage s).editor.previewOptions.remarkPlugins
        (renderEditorPage s).editor.previewOptions.rehypePlugins = true ∧
      mathConfigured (renderEditorPage s).standalone.remarkPlugins
        (renderEditorPage s).standalone.rehypePlugins = true :=
  ⟨rfl, rfl, rfl, rfl⟩

/-- C7: the next-pwa options set `dest` to `"public"`, enable `register`
and `skipWaiting`, and set `disable` exactly when `NODE_ENV` is
`"development"`. -/
theorem pwaOptions_spec (env : String) :
    (pwaOptions env).dest = "public" ∧
      (pwaOptions env).register = true ∧
      (pwaOptions env).skipWaiting = true ∧
      ((pwaOptions env).disable = true ↔ env = "development") :=
  ⟨rfl, rfl, rfl, by simp [pwaOptions]⟩

/-- C8: the alert message never depends on the password: states agreeing
on name and email yield identical alert lists. -/
theorem handleSignup_alert_ignores_password
    (s₁ s₂ : SignupState) (e₁ e₂ : FormEvent)
    (hn : s₁.name = s₂.name) (he : s₁.email = s₂.email) :
    (handleSignup s₁ e₁).alerts = (handleSignup s₂ e₂).alerts := by
  simp [handleSignup, signupAlertMessage, hn, he]

/-- Witness for C8: two states differing only in the password. -/
theorem handleSignup_alert_ignores_password_witness :
    ("Ali" : String) = "Ali" ∧ ("a@b.c" : String) = "a@b.c" ∧
      (handleSignup { name := "Ali", email := "a@b.c", password := "pw1" }
          { defaultPrevented := false }).alerts =
        (handleSignup { name := "Ali", email := "a@b.c", password := "pw2" }
            { defaultPrevented := true }).alerts :=
  ⟨rfl, rfl,
    handleSignup_alert_ignores_password
      { name := "Ali", email := "a@b.c", password := "pw1" }
      { name := "Ali", email := "a@b.c", password := "pw2" }
      { defaultPrevented := false } { defaultPrevented := true } rfl rfl⟩

/-- C9: starting from the page's initial state, after any sequence of
change events — including ones carrying `undefined` — the value state is
a defined string, never `undefined`. -/
theorem editor_value_never_undefined (events : List JSStr) :
    ∃ s : String, (runEditor initialEditorState events).value = some s := by
  induction events using List.reverseRecOn with
  | nil => exact ⟨initialDocument, rfl⟩
  | append_singleton es ev _ =>
    simp only [runEditor, List.foldl_append, List.foldl_cons, List.foldl_nil]
    cases ev with
    | none => exact ⟨"", rfl⟩
    | some v =>
      by_cases h : v = ""
      · exact ⟨"", by simp [editorOnChange, jsOrEmpty, jsFalsy, h]⟩
      · exact ⟨v, by simp [editorOnChange, jsOrEmpty, jsFalsy, h]⟩

/-- C10: the handler makes no field-population check: even on states with
empty fields it still prevents the default and shows the alert; only the
inputs' `required` attributes (all set) enforce population. -/
theorem handleSignup_no_population_check (s : SignupState) (e : FormEvent) :
    (handleSignup s e).event.defaultPrevented = true ∧
      (handleSignup s e).alerts = [signupAlertMessage s] ∧
      (renderSignup s).nameRequired = true ∧
      (renderSignup s).emailRequired = true ∧
      (renderSignup s).passwordRequired = true :=
  ⟨rfl, rfl, rfl, rfl, rfl⟩

end EducationalPlatform
